import Mathlib

/-!
Verification of the Doxygen navigation data file `doc/html/namespaces_dup.js`.

The source file consists of a single JavaScript statement
`var namespaces_dup = [ ... ];` whose right-hand side is a nested array
literal containing only string literals, `null`, and array literals.
We embed the JavaScript value space as the inductive type `JSVal`, the
file's bound value as the constant `namespaces_dup`, and the file itself
as an abstract-syntax statement `namespaces_dup_stmt` together with a
small-step-free evaluator for the literal fragment of JavaScript that
the file uses (extended with identifier lookup, the one fallible
construct relevant to `var` initialisers).
-/

/-- A JavaScript value as it appears in this data file: a string, `null`,
or an array of values. -/
inductive JSVal where
  | str : String → JSVal
  | null : JSVal
  | arr : List JSVal → JSVal

/-- The value bound to `namespaces_dup` in `doc/html/namespaces_dup.js`,
transcribed entry for entry. -/
def namespaces_dup : JSVal :=
  .arr
    [ .arr [ .str "AudioProcessor", .str "namespace_audio_processor.html", .arr
      [ .arr [ .str "audio_adsr_envelope", .str "namespace_audio_processor.html#ae008bec20dd3d0c1ded65275df5b80b8", .null ],
        .arr [ .str "audio_generate_complex_wave", .str "namespace_audio_processor.html#a57c5af1354f319249f7916183e74b85a", .null ],
        .arr [ .str "audio_generate_sawtooth_wave", .str "namespace_audio_processor.html#ac4306017cb43589f6e7da9992f207100", .null ],
        .arr [ .str "audio_generate_sine_wave", .str "namespace_audio_processor.html#a335525d85a6fd00b3a94ebeb50093500", .null ],
        .arr [ .str "audio_generate_square_wave", .str "namespace_audio_processor.html#a4d44152447a43e47ac594e0419214f5f", .null ],
        .arr [ .str "audio_generate_string_wave", .str "namespace_audio_processor.html#a350edf8b29d7fb215d6e069fb228d4e1", .null ],
        .arr [ .str "audio_multiply_gain", .str "namespace_audio_processor.html#a16c83eb3034d2a401d4e45e491c1b7c6", .null ],
        .arr [ .str "audio_note_number_to_freq", .str "namespace_audio_processor.html#a78902f68a76e4f56fa41ccd42582ff05", .null ],
        .arr [ .str "audio_rise_fall_envelope", .str "namespace_audio_processor.html#ac1ee62b21f986317dba3a16317fd0c82", .null ],
        .arr [ .str "audio_stereo_gains", .str "namespace_audio_processor.html#af6ec1931586580f24c7483878e2e7bad", .null ],
        .arr [ .str "audio_stereo_mix_in", .str "namespace_audio_processor.html#a97a7cc89215033302eb80d08856948d0", .null ],
        .arr [ .str "adsr_attack_samples", .str "namespace_audio_processor.html#a7b0d5468caa4388b60aadeed2b5c9dbb", .null ],
        .arr [ .str "adsr_decay_samples", .str "namespace_audio_processor.html#adc182a54eddbe1d15f16aec025fbfbf6", .null ],
        .arr [ .str "adsr_release_samples", .str "namespace_audio_processor.html#a1a4186265ecee161a8823b2825018c63", .null ] ] ],
      .arr [ .str "DataStructure", .str "namespace_data_structure.html", .str "namespace_data_structure" ],
      .arr [ .str "main", .str "namespacemain.html", .arr
      [ .arr [ .str "apply_adsr_envelope", .str "namespacemain.html#a64d9c6e0a696380378c51675821275a6", .null ],
        .arr [ .str "apply_rise_fall_envelope", .str "namespacemain.html#afaf3e4e897be8cf79097bfec07a9a276", .null ],
        .arr [ .str "apply_stereo", .str "namespacemain.html#aace46784eb538958d1ccc130fb4ff433", .null ],
        .arr [ .str "compare_two_wave_files", .str "namespacemain.html#a7bf61d5ff3ea26ace8fe7bf69ba257c2", .null ],
        .arr [ .str "create_waveform", .str "namespacemain.html#ab0ec5311a3c5fc9e0eadb63c1cc3a32c", .null ],
        .arr [ .str "generate_song", .str "namespacemain.html#af46f5bb2c760f56a5e77da4c17ec1c69", .null ],
        .arr [ .str "get_filename", .str "namespacemain.html#ae0652dd6046424e6df071c661d751f0f", .null ],
        .arr [ .str "get_wave_parameters", .str "namespacemain.html#ac887e3e66faa66e5e64c6ec50bf9e078", .null ],
        .arr [ .str "main", .str "namespacemain.html#aa7a58ac748c5293faa4d77a82b94d161", .null ],
        .arr [ .str "print_main_menu", .str "namespacemain.html#a812f03cebb08e2b28db26c9882469c48", .null ] ] ],
      .arr [ .str "Song", .str "namespace_song.html", .str "namespace_song" ],
      .arr [ .str "Wave", .str "namespace_wave.html", .str "namespace_wave" ] ]

/-- The list of top-level entries of the navigation value (the elements of
the outermost array). -/
def topEntries : JSVal → List JSVal
  | .arr es => es
  | _ => []

/-- The display name (first component) of an entry, when the entry has the
expected triple shape. -/
def entryLabel : JSVal → Option String
  | .arr (.str n :: _) => some n
  | _ => none

/-- The display names of the top-level entries, in file order. -/
def topLabels (v : JSVal) : List String :=
  (topEntries v).filterMap entryLabel

mutual

/-- The spec's well-formedness predicate for an entry, as claim C1 states
it: a triple of a display-name string, a target string, and a third
component that is either `null` or a list of child entries of the same
shape.  (This follows the spec's words; the value itself is transcribed
from the source.) -/
def specEntryOk : JSVal → Bool
  | JSVal.arr [JSVal.str _, JSVal.str _, JSVal.null] => true
  | JSVal.arr [JSVal.str _, JSVal.str _, JSVal.arr cs] => specEntriesOk cs
  | _ => false

/-- `specEntryOk` on every entry of a list. -/
def specEntriesOk : List JSVal → Bool
  | [] => true
  | e :: es => specEntryOk e && specEntriesOk es

end

mutual

/-- Well-formedness of an entry as the source file actually has it: the
third component may be `null`, a list of child entries, or a string (a
reference to an external child-data file, Doxygen's convention for
namespaces whose members live in a separate `.js` file). -/
def entryOk : JSVal → Bool
  | JSVal.arr [JSVal.str _, JSVal.str _, JSVal.null] => true
  | JSVal.arr [JSVal.str _, JSVal.str _, JSVal.str _] => true
  | JSVal.arr [JSVal.str _, JSVal.str _, JSVal.arr cs] => entriesOk cs
  | _ => false

/-- `entryOk` on every entry of a list. -/
def entriesOk : List JSVal → Bool
  | [] => true
  | e :: es => entryOk e && entriesOk es

end

mutual

/-- All link-target strings (second components) of an entry, including
those of its nested children, in file order. -/
def entryTargets : JSVal → List String
  | JSVal.arr [JSVal.str _, JSVal.str t, c] => t :: childTargets c
  | _ => []

/-- The link targets contributed by an entry's third component: nothing
for `null` or an external-file string, the targets of the members for a
child list. -/
def childTargets : JSVal → List String
  | JSVal.arr es => listTargets es
  | _ => []

/-- `entryTargets` over a list of entries, concatenated. -/
def listTargets : List JSVal → List String
  | [] => []
  | e :: es => entryTargets e ++ listTargets es

end

/-- Every link-target string appearing anywhere in the navigation value. -/
def allTargets (v : JSVal) : List String :=
  listTargets (topEntries v)

/-- The child list of the top-level entry whose display name is `ns`,
when that entry's third component is an inline list ; `[]` otherwise. -/
def membersOf (v : JSVal) (ns : String) : List JSVal :=
  match (topEntries v).find? (fun e => entryLabel e == some ns) with
  | some (JSVal.arr [_, _, JSVal.arr cs]) => cs
  | _ => []

/-- The display names of the members of namespace `ns`. -/
def memberNames (v : JSVal) (ns : String) : List String :=
  (membersOf v ns).filterMap entryLabel

/-- A lowercase hexadecimal digit. -/
def isLowerHexDigit (c : Char) : Bool :=
  c.isDigit || (Char.ofNat 97 ≤ c && c ≤ Char.ofNat 102)

/-- A Doxygen member anchor: the letter `a` followed by exactly 32
lowercase hexadecimal characters. -/
def isAnchor (s : String) : Bool :=
  match s.data with
  | c :: rest => c == Char.ofNat 97 && rest.length == 32 && rest.all isLowerHexDigit
  | [] => false

/-- Claim C9's condition on one member entry nested under a namespace
whose page URL is `page`: the member is a triple whose third component is
`null` and whose link target is `page`, then `#`, then an anchor. -/
def memberOk (page : String) : JSVal → Bool
  | JSVal.arr [JSVal.str _, JSVal.str u, JSVal.null] =>
      u.take (page.length + 1) == page ++ "#" && isAnchor (u.drop (page.length + 1))
  | _ => false

/-- Claim C9's condition on one top-level namespace entry: whenever its
third component is an inline child list, every member of that list
satisfies `memberOk` for the namespace's own page URL. -/
def namespaceMembersOk : JSVal → Bool
  | JSVal.arr [JSVal.str _, JSVal.str t, JSVal.arr cs] => cs.all (memberOk t)
  | _ => true

/-- The display names of an entry's inline child list (empty for `null`
or external-file third components). -/
def inlineMemberNames : JSVal → List String
  | JSVal.arr [_, _, JSVal.arr cs] => cs.filterMap entryLabel
  | _ => []

/-- ASCII lowercasing of a character, as used for Doxygen's
case-insensitive index ordering. -/
def lowerChar (c : Char) : Char :=
  if 65 ≤ c.toNat && c.toNat ≤ 90 then Char.ofNat (c.toNat + 32) else c

/-- Strict lexicographic order on character lists. -/
def charListLt : List Char → List Char → Bool
  | [], [] => false
  | [], _ :: _ => true
  | _ :: _, [] => false
  | a :: as, b :: bs => a < b || (a == b && charListLt as bs)

/-- The list of strings is strictly increasing under case-insensitive
lexicographic comparison. -/
def sortedCaseInsensitive : List String → Bool
  | a :: b :: rest =>
      charListLt (a.data.map lowerChar) (b.data.map lowerChar) &&
        sortedCaseInsensitive (b :: rest)
  | _ => true

/-- An environment of JavaScript variable bindings. -/
def Env : Type := String → Option JSVal

/-- The environment with no bindings. -/
def emptyEnv : Env := fun _ => none

/-- `updateEnv env x v` is `env` with `x` (re)bound to `v`. -/
def updateEnv (env : Env) (x : String) (v : JSVal) : Env :=
  fun y => if y = x then some v else env y

/-- The JavaScript expression fragment the file uses: string literals,
`null`, array literals — plus identifier references, the one construct of
a `var` initialiser whose evaluation can fail (a ReferenceError on an
unbound name). -/
inductive Expr where
  | strLit : String → Expr
  | nullLit : Expr
  | arrLit : List Expr → Expr
  | ident : String → Expr

mutual

/-- Evaluate an expression in an environment; an unbound identifier is a
runtime error. -/
def evalExpr (env : Env) : Expr → Except String JSVal
  | Expr.strLit s => Except.ok (JSVal.str s)
  | Expr.nullLit => Except.ok JSVal.null
  | Expr.arrLit es => (evalList env es).map JSVal.arr
  | Expr.ident x =>
      match env x with
      | some v => Except.ok v
      | none => Except.error x

/-- Evaluate a list of expressions left to right. -/
def evalList (env : Env) : List Expr → Except String (List JSVal)
  | [] => Except.ok []
  | e :: es => (evalExpr env e).bind fun v => (evalList env es).map (v :: ·)

end

/-- A `var` declaration statement: `var name = rhs;`. -/
structure Stmt where
  name : String
  rhs : Expr

/-- Run a `var` statement: evaluate the right-hand side and bind the
name; everything else in the environment is untouched. -/
def runStmt (env : Env) (s : Stmt) : Except String Env :=
  (evalExpr env s.rhs).map fun v => updateEnv env s.name v

mutual

/-- The literal expression denoting a given value (every node of the
file's right-hand side is a literal, so its abstract syntax is exactly
the literal lifting of its value). -/
def toExpr : JSVal → Expr
  | JSVal.str s => Expr.strLit s
  | JSVal.null => Expr.nullLit
  | JSVal.arr vs => Expr.arrLit (toExprList vs)

/-- `toExpr` on each element of a list. -/
def toExprList : List JSVal → List Expr
  | [] => []
  | v :: vs => toExpr v :: toExprList vs

end

/-- The whole source file `namespaces_dup.js` as abstract syntax: the
single statement `var namespaces_dup = [ ... ];`. -/
def namespaces_dup_stmt : Stmt :=
  { name := "namespaces_dup", rhs := toExpr namespaces_dup }

/-- No string occurs twice in the list. -/
def nodupBool : List String → Bool
  | [] => true
  | s :: ss => !(ss.contains s) && nodupBool ss

set_option maxRecDepth 100000

/-- Evaluating the file's right-hand side in any environment yields
exactly the transcribed value: the expression contains no identifier, so
the environment is never consulted. -/
theorem evalExpr_rhs (env : Env) :
    evalExpr env namespaces_dup_stmt.rhs = Except.ok namespaces_dup := rfl

/-- Claim C1, counterexample: the second top-level entry of
`namespaces_dup` (the `DataStructure` namespace) is a triple whose third
component is the string `"namespace_data_structure"` — neither `null` nor
a list of child entries — so not every entry matches the spec's shape. -/
theorem namespaces_dup_spec_shape_refuted :
    (topEntries namespaces_dup)[1]? =
      some (JSVal.arr [JSVal.str "DataStructure",
        JSVal.str "namespace_data_structure.html",
        JSVal.str "namespace_data_structure"]) ∧
    specEntryOk (JSVal.arr [JSVal.str "DataStructure",
        JSVal.str "namespace_data_structure.html",
        JSVal.str "namespace_data_structure"]) = false ∧
    specEntriesOk (topEntries namespaces_dup) = false :=
  ⟨rfl, by decide, by decide⟩

/-- Claim C1, amended: every entry in the `namespaces_dup` tree is a
triple whose first component is a display-name string, whose second is a
target string, and whose third is `null`, a list of child entries of the
same shape, or a string naming an external child-data file. -/
theorem namespaces_dup_entry_shape :
    entriesOk (topEntries namespaces_dup) = true := by decide

/-- Claim C2: the top-level entries of `namespaces_dup` are labelled
exactly `AudioProcessor`, `DataStructure`, `Song`, `Wave` and `main` —
these five and no others. -/
theorem namespaces_dup_top_labels :
    ∀ s : String, s ∈ topLabels namespaces_dup ↔
      (s = "AudioProcessor" ∨ s = "DataStructure" ∨ s = "Song" ∨
        s = "Wave" ∨ s = "main") := by
  intro s
  rw [show topLabels namespaces_dup =
    ["AudioProcessor", "DataStructure", "main", "Song", "Wave"] from by decide]
  simp only [List.mem_cons, List.not_mem_nil, or_false]
  tauto

/-- Claim C3: all link-target strings appearing anywhere in the
`namespaces_dup` tree (second component of every entry, top-level and
nested) are pairwise distinct. -/
theorem namespaces_dup_targets_nodup :
    (allTargets namespaces_dup).Nodup := by decide

/-- Claim C4: `AudioProcessor`'s child list contains members named
`audio_generate_sine_wave` and `audio_adsr_envelope`, and `main`'s child
list contains members named `generate_song` and
`compare_two_wave_files`. -/
theorem namespaces_dup_member_presence :
    "audio_generate_sine_wave" ∈ memberNames namespaces_dup "AudioProcessor" ∧
    "audio_adsr_envelope" ∈ memberNames namespaces_dup "AudioProcessor" ∧
    "generate_song" ∈ memberNames namespaces_dup "main" ∧
    "compare_two_wave_files" ∈ memberNames namespaces_dup "main" := by
  decide

/-- Claim C5: the file binds a single constant; evaluating its
right-hand side in any two environments gives the same result, and that
result is the fixed value `namespaces_dup` — no dependence on any input
or environment. -/
theorem namespaces_dup_eval_deterministic :
    ∀ env₁ env₂ : Env,
      evalExpr env₁ namespaces_dup_stmt.rhs =
        evalExpr env₂ namespaces_dup_stmt.rhs ∧
      evalExpr env₁ namespaces_dup_stmt.rhs = Except.ok namespaces_dup :=
  fun _ _ => ⟨rfl, rfl⟩

/-- Claim C6: evaluating the file can never fail at runtime — running
its single statement in any environment yields `Except.ok`, never an
error. -/
theorem namespaces_dup_eval_total :
    ∀ env : Env, ∃ env₂ : Env,
      runStmt env namespaces_dup_stmt = Except.ok env₂ :=
  fun env => ⟨updateEnv env "namespaces_dup" namespaces_dup, rfl⟩

/-- Claim C7: running the file only (re)binds the variable
`namespaces_dup` to the navigation value; every other binding of the
environment is unchanged. -/
theorem namespaces_dup_eval_frame (env : Env) (x : String)
    (hx : x ≠ "namespaces_dup") :
    runStmt env namespaces_dup_stmt =
      Except.ok (updateEnv env "namespaces_dup" namespaces_dup) ∧
    updateEnv env "namespaces_dup" namespaces_dup x = env x ∧
    updateEnv env "namespaces_dup" namespaces_dup "namespaces_dup" =
      some namespaces_dup := by
  refine ⟨rfl, ?_, ?_⟩
  · simp [updateEnv, hx]
  · simp [updateEnv]

/-- Claim C7, witness: the frame theorem applied to the empty
environment and the unrelated name `"other"`. -/
theorem namespaces_dup_eval_frame_witness :
    runStmt emptyEnv namespaces_dup_stmt =
      Except.ok (updateEnv emptyEnv "namespaces_dup" namespaces_dup) ∧
    updateEnv emptyEnv "namespaces_dup" namespaces_dup "other" =
      emptyEnv "other" ∧
    updateEnv emptyEnv "namespaces_dup" namespaces_dup "namespaces_dup" =
      some namespaces_dup :=
  namespaces_dup_eval_frame emptyEnv "other" (by decide)

/-- Claim C8: the top-level namespace entries are ordered
case-insensitively alphabetically by display name, and that order is
`AudioProcessor`, `DataStructure`, `main`, `Song`, `Wave`. -/
theorem namespaces_dup_top_level_sorted :
    sortedCaseInsensitive (topLabels namespaces_dup) = true ∧
    topLabels namespaces_dup =
      ["AudioProcessor", "DataStructure", "main", "Song", "Wave"] :=
  ⟨by decide, by decide⟩

/-- Claim C9: every nested member entry has `null` as its third
component (so the tree has depth exactly two), and its link target is
its enclosing namespace's page URL followed by `#` and an anchor of the
letter `a` plus 32 lowercase hexadecimal characters. -/
theorem namespaces_dup_members_wellformed :
    (topEntries namespaces_dup).all namespaceMembersOk = true := by decide

/-- Claim C10: within each namespace's inline child list, the member
display names are pairwise distinct. -/
theorem namespaces_dup_member_names_nodup :
    (topEntries namespaces_dup).all
      (fun e => nodupBool (inlineMemberNames e)) = true := by decide
